import Mathlib

/-!
Verification development for the scanback-backend QR-code lifecycle engine.

The definitions below are a shallow embedding of the JavaScript source:
  * the Mongoose schema `src/models/QRCode.js` (record shape, the
    `incrementScanCount` and `markAsFound` document methods),
  * the service layer `src/services/qrService.js` (TTL cache, request
    coalescing, activate / scan / found / update / toggle / OTP operations),
  * the HTTP route layer `src/routes/qr.js` (ownership checks, the
    activate idempotency rule, the toggle computation, the OTP-gated
    contact-update flow).

Timestamps are modelled as `Nat` milliseconds.  Mongo documents are
modelled as Lean structures whose optional fields are `Option`; the Mongo
collection (keyed by the unique `code`) and the in-memory `Map` cache are
modelled as functions from keys to `Option` values.  JavaScript object
spread (`{ ...old, ...patch }`, key-level override) is modelled by
field-wise `Option.orElse`; a Mongo `$set` of a whole subdocument replaces
that subdocument.
-/

namespace ScanBack

/-- `status` enum of the QRCode schema: active, inactive, suspended, found. -/
inductive Status where
  | active
  | inactive
  | suspended
  | found
deriving Repr, DecidableEq

/-- One entry of `metadata.scanHistory` (QRCode.js schema). -/
structure ScanEntry where
  scannedAt : Nat
  ipAddress : String
  userAgent : String
  location : String
deriving Repr, DecidableEq

/-- `contact.location` subdocument. -/
structure LocationInfo where
  address : Option String := none
  city : Option String := none
  country : Option String := none
  lat : Option Int := none
  lng : Option Int := none
deriving Repr, DecidableEq

/-- `details` subdocument of the QRCode schema.  Every key a JS object may
or may not carry is an `Option`. -/
structure Details where
  name : Option String := none
  description : Option String := none
  category : Option String := none
  color : Option String := none
  brand : Option String := none
  model : Option String := none
  serialNumber : Option String := none
  image : Option String := none
  emergencyDetails : Option String := none
  pedigreeInfo : Option String := none
  microchipId : Option String := none
  medicalNotes : Option String := none
  vetName : Option String := none
  vetPhone : Option String := none
  vetCountryCode : Option String := none
  emergencyContact : Option String := none
  emergencyCountryCode : Option String := none
  breed : Option String := none
  age : Option String := none
  registrationNumber : Option String := none
  breederInfo : Option String := none
  value : Option Int := none
  purchaseDate : Option Nat := none
  warrantyExpiry : Option Nat := none
deriving Repr, DecidableEq

/-- `contact` subdocument of the QRCode schema. -/
structure Contact where
  name : Option String := none
  phone : Option String := none
  backupPhone : Option String := none
  countryCode : Option String := none
  email : Option String := none
  message : Option String := none
  location : Option LocationInfo := none
deriving Repr, DecidableEq

/-- `settings` subdocument of the QRCode schema. -/
structure Settings where
  instantAlerts : Option Bool := none
  locationSharing : Option Bool := none
  showContactOnFinderPage : Option Bool := none
deriving Repr, DecidableEq

/-- `foundBy` subdocument of the QRCode schema. -/
structure FoundInfo where
  finderName : Option String := none
  finderPhone : Option String := none
  finderEmail : Option String := none
  foundDate : Option Nat := none
  foundLocation : Option String := none
  notes : Option String := none
deriving Repr, DecidableEq

/-- `updateOTP` subdocument (OTP fields for contact updates).  Each field
is optional because `clearUpdateOTP` `$unset`s the four subfields
individually, leaving an empty subdocument behind. -/
structure UpdateOTPData where
  code : Option String := none
  expires : Option Nat := none
  newEmail : Option String := none
  newPhone : Option String := none
deriving Repr, DecidableEq

/-- A QRCode document (QRCode.js schema), restricted to the fields the
lifecycle operations read or write.  `scanHistory` stands for
`metadata.scanHistory`; `updateOTP = none` models the subdocument being
absent altogether. -/
structure QRRecord where
  code : String
  type : String
  owner : Option String := none
  details : Details := {}
  contact : Contact := {}
  settings : Settings := {}
  status : Status := Status.active
  isActivated : Bool := false
  activationDate : Option Nat := none
  lastScanned : Option Nat := none
  scanCount : Nat := 0
  foundBy : Option FoundInfo := none
  scanHistory : List ScanEntry := []
  updateOTP : Option UpdateOTPData := none
deriving Repr, DecidableEq

/-- Scan metadata passed by the routes to `handleScan` / `trackScan`
(ip address, user agent, location; any of them may be missing). -/
structure ScanMeta where
  ipAddress : Option String := none
  userAgent : Option String := none
  location : Option String := none
deriving Repr, DecidableEq

/-- The history entry `incrementScanCount` pushes (missing metadata fields
default to the string `unknown`). -/
def newScanEntry (now : Nat) (m : ScanMeta) : ScanEntry :=
  { scannedAt := now
    ipAddress := m.ipAddress.getD "unknown"
    userAgent := m.userAgent.getD "unknown"
    location := m.location.getD "unknown" }

/-- `incrementScanCount` (QRCode.js lines 155-169): bump `scanCount`, set
`lastScanned`, push a history entry, and keep only the last 50 entries
(`slice(-50)` once the length exceeds 50). -/
def incrementScanCount (r : QRRecord) (now : Nat) (m : ScanMeta) : QRRecord :=
  let e : ScanEntry := newScanEntry now m
  let h := r.scanHistory ++ [e]
  { r with
    scanCount := r.scanCount + 1
    lastScanned := some now
    scanHistory := if h.length > 50 then h.drop (h.length - 50) else h }

/-- `markAsFound` (QRCode.js lines 172-182): set `status = found` and
populate `foundBy` from the finder's details. -/
structure FinderDetails where
  name : Option String := none
  phone : Option String := none
  email : Option String := none
  location : Option String := none
  notes : Option String := none
deriving Repr, DecidableEq

def markAsFound (r : QRRecord) (f : FinderDetails) (now : Nat) : QRRecord :=
  { r with
    status := Status.found
    foundBy := some
      { finderName := f.name
        finderPhone := f.phone
        finderEmail := f.email
        foundDate := some now
        foundLocation := f.location
        notes := f.notes } }

/-- Folding a list of scans over a record (used to state the bounded-history
invariant over any number of scan operations). -/
def applyScans (r : QRRecord) (ms : List (Nat × ScanMeta)) : QRRecord :=
  ms.foldl (fun acc nm => incrementScanCount acc nm.1 nm.2) r

/-- Error kinds surfaced by the service / route layer (each corresponds to a
distinct thrown message or HTTP error branch in the source). -/
inductive QRError where
  | notFound
  | alreadyActivated
  | alreadyFound
  | notActivated
  | accessDenied
  | invalidOrExpiredOTP
deriving Repr, DecidableEq

deriving instance DecidableEq for Except

/-- The Mongo collection of QRCode documents, keyed by the unique `code`. -/
def Store : Type := String → Option QRRecord

/-- `QRCodeModel.findOne({ code })`. -/
def findOne (db : Store) (code : String) : Option QRRecord := db code

/-- Persisting a document (`qrCode.save()` / `findOneAndUpdate`): the store
maps the document's unique code to the new document. -/
def saveRecord (db : Store) (r : QRRecord) : Store :=
  fun c => if c = r.code then some r else db c

/-- The `details` part of the public-lookup field projection
(`fetchQRCodeFromDatabase`, qrService lines 209-230): exactly these keys
are selected; `serialNumber`, `value`, `purchaseDate`, `warrantyExpiry`
are not. -/
structure PublicDetails where
  name : Option String
  description : Option String
  image : Option String
  category : Option String
  color : Option String
  brand : Option String
  model : Option String
  emergencyDetails : Option String
  pedigreeInfo : Option String
  microchipId : Option String
  medicalNotes : Option String
  vetName : Option String
  vetPhone : Option String
  vetCountryCode : Option String
  emergencyContact : Option String
  emergencyCountryCode : Option String
  breed : Option String
  age : Option String
  registrationNumber : Option String
  breederInfo : Option String
deriving Repr, DecidableEq

/-- The `contact` part of the public-lookup projection (name, phone, email,
message only; no backupPhone, countryCode or location). -/
structure PublicContact where
  name : Option String
  phone : Option String
  email : Option String
  message : Option String
deriving Repr, DecidableEq

/-- The document shape returned by the public-lookup query: the minimal
field projection of `fetchQRCodeFromDatabase`. -/
structure PublicView where
  code : String
  type : String
  isActivated : Bool
  status : Status
  details : PublicDetails
  contact : PublicContact
  settings : Settings
deriving Repr, DecidableEq

/-- The field projection applied by the public-lookup database query
(qrService lines 202-242).  `owner`, `updateOTP`, `scanCount`, `foundBy`
and `metadata` (hence `scanHistory`) are not selected. -/
def projectPublic (r : QRRecord) : PublicView :=
  { code := r.code
    type := r.type
    isActivated := r.isActivated
    status := r.status
    details :=
      { name := r.details.name
        description := r.details.description
        image := r.details.image
        category := r.details.category
        color := r.details.color
        brand := r.details.brand
        model := r.details.model
        emergencyDetails := r.details.emergencyDetails
        pedigreeInfo := r.details.pedigreeInfo
        microchipId := r.details.microchipId
        medicalNotes := r.details.medicalNotes
        vetName := r.details.vetName
        vetPhone := r.details.vetPhone
        vetCountryCode := r.details.vetCountryCode
        emergencyContact := r.details.emergencyContact
        emergencyCountryCode := r.details.emergencyCountryCode
        breed := r.details.breed
        age := r.details.age
        registrationNumber := r.details.registrationNumber
        breederInfo := r.details.breederInfo }
    contact :=
      { name := r.contact.name
        phone := r.contact.phone
        email := r.contact.email
        message := r.contact.message }
    settings := r.settings }

/-- One entry of the in-memory QR cache: the projected document plus its
insertion timestamp. -/
structure CacheEntry where
  data : PublicView
  timestamp : Nat
deriving Repr, DecidableEq

/-- The module-level `qrCache` Map, keyed by `"qr_" ++ code`. -/
def Cache : Type := String → Option CacheEntry

/-- `CACHE_TTL = 10 * 60 * 1000` (10 minutes in milliseconds). -/
def CACHE_TTL : Nat := 10 * 60 * 1000

/-- The cache key for a code (the source prefixes codes with `qr_`). -/
def cacheKey (code : String) : String := "qr_" ++ code

def cacheGet (c : Cache) (k : String) : Option CacheEntry := c k

def cacheSet (c : Cache) (k : String) (e : CacheEntry) : Cache :=
  fun k2 => if k2 = k then some e else c k2

def cacheDelete (c : Cache) (k : String) : Cache :=
  fun k2 => if k2 = k then none else c k2

/-- The empty cache. -/
def emptyCache : Cache := fun _ => none

/-- `cleanupCache` (qrService lines 264-271): drop every entry strictly
older than the TTL (`now - timestamp > CACHE_TTL`). -/
def cleanupCache (c : Cache) (now : Nat) : Cache :=
  fun k =>
    match c k with
    | some e => if now - e.timestamp > CACHE_TTL then none else some e
    | none => none

/-- `fetchQRCodeFromDatabase` (qrService lines 200-259): projected query;
on a hit the result is cached with a fresh timestamp and `cleanupCache`
runs; a missing code throws without touching the cache. -/
def fetchQRCodeFromDatabase (db : Store) (cache : Cache) (code : String)
    (now : Nat) : Except QRError PublicView × Cache :=
  match findOne db code with
  | none => (Except.error QRError.notFound, cache)
  | some r =>
      let v := projectPublic r
      (Except.ok v,
       cleanupCache (cacheSet cache (cacheKey code) { data := v, timestamp := now }) now)

/-- Sequential behaviour of `getQRCodeByCodePublic` (qrService lines
162-195): serve from the cache while `now - timestamp < CACHE_TTL`,
otherwise fetch from the database.  The Bool records whether the database
was queried.  (The `requestQueue` branch is the identity in sequential
use — the queue entry is removed in the `finally` before the call
returns; the concurrent behaviour is modelled separately below.) -/
def getQRCodeByCodePublic (db : Store) (cache : Cache) (code : String)
    (now : Nat) : Except QRError PublicView × Cache × Bool :=
  match cacheGet cache (cacheKey code) with
  | some e =>
      if now - e.timestamp < CACHE_TTL then (Except.ok e.data, cache, false)
      else
        let f := fetchQRCodeFromDatabase db cache code now
        (f.1, f.2, true)
  | none =>
      let f := fetchQRCodeFromDatabase db cache code now
      (f.1, f.2, true)

/-- Payload of an activation request (`details` / `contact` / `settings`
objects from the request body). -/
structure ActivationData where
  details : Details := {}
  contact : Contact := {}
  settings : Settings := {}
deriving Repr, DecidableEq

/-- The fallback location object the source substitutes when
`contact.location` is absent (empty strings, zero coordinates). -/
def defaultLocation : LocationInfo :=
  { address := some ""
    city := some ""
    country := some ""
    lat := some 0
    lng := some 0 }

/-- JS spread merge `{ ...old, ...new }` on the `details` object: keys
present in `new` override, absent keys keep the old value. -/
def mergeDetails (old new : Details) : Details :=
  { name := new.name <|> old.name
    description := new.description <|> old.description
    category := new.category <|> old.category
    color := new.color <|> old.color
    brand := new.brand <|> old.brand
    model := new.model <|> old.model
    serialNumber := new.serialNumber <|> old.serialNumber
    image := new.image <|> old.image
    emergencyDetails := new.emergencyDetails <|> old.emergencyDetails
    pedigreeInfo := new.pedigreeInfo <|> old.pedigreeInfo
    microchipId := new.microchipId <|> old.microchipId
    medicalNotes := new.medicalNotes <|> old.medicalNotes
    vetName := new.vetName <|> old.vetName
    vetPhone := new.vetPhone <|> old.vetPhone
    vetCountryCode := new.vetCountryCode <|> old.vetCountryCode
    emergencyContact := new.emergencyContact <|> old.emergencyContact
    emergencyCountryCode := new.emergencyCountryCode <|> old.emergencyCountryCode
    breed := new.breed <|> old.breed
    age := new.age <|> old.age
    registrationNumber := new.registrationNumber <|> old.registrationNumber
    breederInfo := new.breederInfo <|> old.breederInfo
    value := new.value <|> old.value
    purchaseDate := new.purchaseDate <|> old.purchaseDate
    warrantyExpiry := new.warrantyExpiry <|> old.warrantyExpiry }

/-- Activation merge of `contact` (qrService lines 310-322):
`{ ...old, ...new, location: new.location || default }` — spread merge,
except that `location` is always overwritten (the incoming location if
present, else the empty default; the old location is never kept). -/
def mergeContactActivation (old new : Contact) : Contact :=
  { name := new.name <|> old.name
    phone := new.phone <|> old.phone
    backupPhone := new.backupPhone <|> old.backupPhone
    countryCode := new.countryCode <|> old.countryCode
    email := new.email <|> old.email
    message := new.message <|> old.message
    location := some (new.location.getD defaultLocation) }

/-- JS spread merge `{ ...old, ...new }` on the `settings` object. -/
def mergeSettings (old new : Settings) : Settings :=
  { instantAlerts := new.instantAlerts <|> old.instantAlerts
    locationSharing := new.locationSharing <|> old.locationSharing
    showContactOnFinderPage := new.showContactOnFinderPage <|> old.showContactOnFinderPage }

/-- `activateQRCode` (qrService lines 293-339): find the document, reject
if absent or already activated; otherwise set `isActivated`,
`activationDate`, `owner`, merge the activation payload, save, and delete
the code's cache entry. -/
def activateQRCode (db : Store) (cache : Cache) (code : String)
    (a : ActivationData) (ownerId : String) (now : Nat) :
    Except QRError QRRecord × Store × Cache :=
  match findOne db code with
  | none => (Except.error QRError.notFound, db, cache)
  | some r =>
      if r.isActivated then (Except.error QRError.alreadyActivated, db, cache)
      else
        let r2 : QRRecord :=
          { r with
            isActivated := true
            activationDate := some now
            owner := some ownerId
            details := mergeDetails r.details a.details
            contact := mergeContactActivation r.contact a.contact
            settings := mergeSettings r.settings a.settings }
        (Except.ok r2, saveRecord db r2, cacheDelete cache (cacheKey code))

/-- The activate endpoint (qr.js lines 206-238): after resolving the
requesting user, an already-activated code owned by the same user is
answered with the existing document unchanged (idempotent no-op); an
already-activated code with a different (or missing) owner is rejected;
otherwise `activateQRCode` runs.  (User lookup/creation and email delivery
are external collaborators and not modelled.) -/
def activateRoute (db : Store) (cache : Cache) (code : String)
    (a : ActivationData) (userId : String) (now : Nat) :
    Except QRError QRRecord × Store × Cache :=
  match findOne db code with
  | none => (Except.error QRError.notFound, db, cache)
  | some r =>
      if r.isActivated then
        match r.owner with
        | some o =>
            if o = userId then (Except.ok r, db, cache)
            else (Except.error QRError.alreadyActivated, db, cache)
        | none => (Except.error QRError.alreadyActivated, db, cache)
      else activateQRCode db cache code a userId now

/-- `handleScan` (qrService lines 344-384): reject absent or unactivated
codes before any mutation; otherwise `incrementScanCount`, save, and
delete the cache entry. -/
def handleScan (db : Store) (cache : Cache) (code : String) (m : ScanMeta)
    (now : Nat) : Except QRError QRRecord × Store × Cache :=
  match findOne db code with
  | none => (Except.error QRError.notFound, db, cache)
  | some r =>
      if r.isActivated then
        let r2 := incrementScanCount r now m
        (Except.ok r2, saveRecord db r2, cacheDelete cache (cacheKey r2.code))
      else (Except.error QRError.notActivated, db, cache)

/-- `trackScan` (qrService lines 596-629): same guard and mutation as
`handleScan`; returns the new scan count and last-scanned time. -/
def trackScan (db : Store) (cache : Cache) (code : String) (m : ScanMeta)
    (now : Nat) : Except QRError (Nat × Option Nat) × Store × Cache :=
  match findOne db code with
  | none => (Except.error QRError.notFound, db, cache)
  | some r =>
      if r.isActivated then
        let r2 := incrementScanCount r now m
        (Except.ok (r2.scanCount, r2.lastScanned), saveRecord db r2,
         cacheDelete cache (cacheKey r2.code))
      else (Except.error QRError.notActivated, db, cache)

/-- `reportFound` (qrService lines 389-421): reject absent codes and codes
already in status `found`; otherwise `markAsFound`, save, and delete the
cache entry.  (The user-stats update is external.) -/
def reportFound (db : Store) (cache : Cache) (code : String)
    (f : FinderDetails) (now : Nat) : Except QRError QRRecord × Store × Cache :=
  match findOne db code with
  | none => (Except.error QRError.notFound, db, cache)
  | some r =>
      if r.status = Status.found then (Except.error QRError.alreadyFound, db, cache)
      else
        let r2 := markAsFound r f now
        (Except.ok r2, saveRecord db r2, cacheDelete cache (cacheKey r2.code))

/-- Update request body: each of the three top-level keys may be absent. -/
structure UpdatePatch where
  details : Option Details := none
  contact : Option Contact := none
  settings : Option Settings := none
deriving Repr, DecidableEq

/-- The `$set` document `updateQRCode` builds: each top-level key present
in the body replaces the whole corresponding subdocument. -/
def applyUpdatePatch (r : QRRecord) (u : UpdatePatch) : QRRecord :=
  { r with
    details := u.details.getD r.details
    contact := u.contact.getD r.contact
    settings := u.settings.getD r.settings }

/-- `updateQRCode` (qrService lines 444-475): build `updateFields` from the
top-level keys present in the body and apply them with a Mongo `$set` —
so each present key replaces the WHOLE corresponding subdocument, and
absent keys leave theirs untouched.  No cache eviction happens here. -/
def updateQRCode (db : Store) (cache : Cache) (code : String)
    (u : UpdatePatch) : Except QRError QRRecord × Store × Cache :=
  match findOne db code with
  | none => (Except.error QRError.notFound, db, cache)
  | some r =>
      let r2 : QRRecord := applyUpdatePatch r u
      (Except.ok r2, saveRecord db r2, cache)

/-- `toggleQRCodeStatus` (qrService lines 570-591): `$set` the status the
route computed.  No cache eviction happens here either. -/
def toggleQRCodeStatus (db : Store) (cache : Cache) (code : String)
    (newStatus : Status) : Except QRError QRRecord × Store × Cache :=
  match findOne db code with
  | none => (Except.error QRError.notFound, db, cache)
  | some r =>
      let r2 : QRRecord := { r with status := newStatus }
      (Except.ok r2, saveRecord db r2, cache)

/-- The toggle-status endpoint (qr.js lines 597-631): ownership check, then
`newStatus = status === 'active' ? 'inactive' : 'active'` — every
non-active status (inactive, but also suspended and found) is sent to
`active`. -/
def toggleStatusRoute (db : Store) (cache : Cache) (code : String)
    (userId : String) : Except QRError QRRecord × Store × Cache :=
  match findOne db code with
  | none => (Except.error QRError.notFound, db, cache)
  | some r =>
      if r.owner = some userId then
        toggleQRCodeStatus db cache code
          (if r.status = Status.active then Status.inactive else Status.active)
      else (Except.error QRError.accessDenied, db, cache)

/-- `storeUpdateOTP` (qrService lines 506-522): `$set` the four
`updateOTP` subfields. -/
def storeUpdateOTP (db : Store) (code otp : String) (expires : Nat)
    (newEmail newPhone : Option String) : Store :=
  match findOne db code with
  | none => db
  | some r =>
      saveRecord db
        { r with
          updateOTP := some
            { code := some otp
              expires := some expires
              newEmail := newEmail
              newPhone := newPhone } }

/-- `verifyUpdateOTP` (qrService lines 527-544): true iff the document
exists, carries an `updateOTP` whose `code` equals the submitted OTP, and
`now` is strictly before `expires`.  A cleared subdocument (all subfields
unset) fails the comparison. -/
def verifyUpdateOTP (db : Store) (code otp : String) (now : Nat) : Bool :=
  match findOne db code with
  | none => false
  | some r =>
      match r.updateOTP with
      | none => false
      | some u =>
          match u.code, u.expires with
          | some c, some e => c == otp && decide (now < e)
          | _, _ => false

/-- `clearUpdateOTP` (qrService lines 549-565): `$unset` the four
`updateOTP` subfields (an empty subdocument remains if one was present). -/
def clearUpdateOTP (db : Store) (code : String) : Store :=
  match findOne db code with
  | none => db
  | some r => saveRecord db { r with updateOTP := r.updateOTP.map (fun _ => {}) }

/-- The verify-update-otp endpoint (qr.js lines 536-590): ownership check,
`verifyUpdateOTP`, then `updateQRCode` with the submitted patch, then
`clearUpdateOTP`. -/
def verifyUpdateRoute (db : Store) (cache : Cache) (code otp : String)
    (u : UpdatePatch) (userId : String) (now : Nat) :
    Except QRError QRRecord × Store × Cache :=
  match findOne db code with
  | none => (Except.error QRError.notFound, db, cache)
  | some r =>
      if r.owner = some userId then
        if verifyUpdateOTP db code otp now then
          let t := updateQRCode db cache code u
          match t.1 with
          | Except.ok r2 => (Except.ok r2, clearUpdateOTP t.2.1 code, t.2.2)
          | Except.error e => (Except.error e, t.2.1, t.2.2)
        else (Except.error QRError.invalidOrExpiredOTP, db, cache)
      else (Except.error QRError.accessDenied, db, cache)

/-!
## Concurrent public lookups (request coalescing)

`getQRCodeByCodePublic` coalesces concurrent misses through the
module-level `requestQueue` Map.  Node's event loop runs the synchronous
prefix of each call — cache check, `requestQueue.has` check, and
`requestQueue.set` — without interleaving (there is no `await` between
them), so one caller's arrival is a single atomic step.  The shared
fetch's resolution (caching the result inside `fetchQRCodeFromDatabase`,
delivering one value to every waiter, and the `finally` removing the
registry entry) is the completion step.  The state below tracks, for one
fixed code: the cache, the in-flight registry entry with its waiting
callers, how many database queries have been issued, and each caller's
delivered result.
-/

/-- In-process state of the coalescing layer for a single code. -/
structure CoalesceState where
  cache : Cache
  inFlight : Option (List Nat)
  dbQueries : Nat
  results : List (Nat × Except QRError PublicView)

/-- Events: a caller starts a public lookup at some time, or the in-flight
database fetch completes. -/
inductive Ev where
  | arrive (caller : Nat) (now : Nat)
  | complete (now : Nat)

/-- A caller that finds neither a valid cache entry nor joins an existing
in-flight fetch registers a new one (issuing one database query);
otherwise it just joins the waiters (`requestQueue.get(code)`). -/
def arriveMiss (s : CoalesceState) (caller : Nat) : CoalesceState :=
  match s.inFlight with
  | some ws => { s with inFlight := some (caller :: ws) }
  | none => { s with inFlight := some [caller], dbQueries := s.dbQueries + 1 }

/-- One atomic step of the coalescing layer. -/
def step (db : Store) (code : String) (s : CoalesceState) (e : Ev) : CoalesceState :=
  match e with
  | Ev.arrive caller now =>
      match cacheGet s.cache (cacheKey code) with
      | some ent =>
          if now - ent.timestamp < CACHE_TTL then
            { s with results := (caller, Except.ok ent.data) :: s.results }
          else arriveMiss s caller
      | none => arriveMiss s caller
  | Ev.complete now =>
      match s.inFlight with
      | none => s
      | some ws =>
          match findOne db code with
          | none =>
              { s with
                inFlight := none
                results := ws.map (fun c => (c, Except.error QRError.notFound)) ++ s.results }
          | some r =>
              { s with
                inFlight := none
                cache := cleanupCache
                  (cacheSet s.cache (cacheKey code)
                    { data := projectPublic r, timestamp := now }) now
                results := ws.map (fun c => (c, Except.ok (projectPublic r))) ++ s.results }

/-- Run a sequence of events. -/
def runEvents (db : Store) (code : String) (s : CoalesceState) (es : List Ev) :
    CoalesceState :=
  es.foldl (step db code) s

/-- The state before any lookup: empty cache, no in-flight fetch, no
database queries issued, no delivered results. -/
def initialState : CoalesceState :=
  { cache := emptyCache, inFlight := none, dbQueries := 0, results := [] }

/-!
## Supporting lemmas
-/

lemma incrementScanCount_scanHistory_eq (r : QRRecord) (now : Nat) (m : ScanMeta) :
    (incrementScanCount r now m).scanHistory =
      (if (r.scanHistory ++ [newScanEntry now m]).length > 50
       then (r.scanHistory ++ [newScanEntry now m]).drop
              ((r.scanHistory ++ [newScanEntry now m]).length - 50)
       else r.scanHistory ++ [newScanEntry now m]) := rfl

/-- A single scan leaves at most 50 history entries, whatever the record
held before. -/
lemma incrementScanCount_length_le (r : QRRecord) (now : Nat) (m : ScanMeta) :
    (incrementScanCount r now m).scanHistory.length ≤ 50 := by
  rw [incrementScanCount_scanHistory_eq]
  split
  · rename_i h
    rw [List.length_drop]
    omega
  · rename_i h
    omega

/-- Any sequence of scans keeps the history bound, starting from a record
that satisfies it. -/
lemma applyScans_length_le (ms : List (Nat × ScanMeta)) (r : QRRecord)
    (hle : r.scanHistory.length ≤ 50) :
    (applyScans r ms).scanHistory.length ≤ 50 := by
  induction ms generalizing r with
  | nil => simpa [applyScans] using hle
  | cons a tl ih =>
      simp only [applyScans, List.foldl_cons] at *
      exact ih _ (incrementScanCount_length_le _ _ _)

/-- Single-step FIFO shape: the new history is the old one (minus its head
when the 50-entry bound was already reached) with the new entry appended
last. -/
lemma incrementScanCount_fifo (r : QRRecord) (hle : r.scanHistory.length ≤ 50)
    (now : Nat) (m : ScanMeta) :
    (incrementScanCount r now m).scanHistory =
      (if r.scanHistory.length = 50 then r.scanHistory.drop 1 else r.scanHistory)
        ++ [newScanEntry now m] := by
  rw [incrementScanCount_scanHistory_eq]
  rcases Nat.lt_or_ge r.scanHistory.length 50 with h | h
  · rw [if_neg, if_neg]
    · omega
    · simp only [List.length_append, List.length_cons, List.length_nil]
      omega
  · have h50 : r.scanHistory.length = 50 := Nat.le_antisymm hle h
    rw [if_pos h50, if_pos]
    · have hdrop : (r.scanHistory ++ [newScanEntry now m]).length - 50 = 1 := by
        simp only [List.length_append, List.length_cons, List.length_nil]
        omega
      rw [hdrop, List.drop_append_of_le_length (by omega)]
    · simp only [List.length_append, List.length_cons, List.length_nil]
      omega

/-!
## Claim theorems
-/

/-- C2: for every record (with a history currently within the bound) the
scan history never exceeds 50 entries after any number of scans, and each
scan appends exactly one new entry as the newest, discarding the oldest
entry first when the 50-entry bound is reached. -/
theorem scanHistory_bounded_fifo (r : QRRecord)
    (hle : r.scanHistory.length ≤ 50)
    (ms : List (Nat × ScanMeta)) (now : Nat) (m : ScanMeta) :
    (applyScans r ms).scanHistory.length ≤ 50 ∧
    (incrementScanCount r now m).scanHistory =
      (if r.scanHistory.length = 50 then r.scanHistory.drop 1 else r.scanHistory)
        ++ [newScanEntry now m] :=
  ⟨applyScans_length_le ms r hle, incrementScanCount_fifo r hle now m⟩

/-- C10: the public-lookup projection never reads `owner`, `updateOTP`,
`scanCount`, `scanHistory` or `foundBy`, so two records differing only in
those fields produce identical public-lookup results — the public path
cannot leak the pending OTP, the scan ledger, or the owner reference. -/
theorem public_projection_noninterference (r : QRRecord) (o : Option String)
    (u : Option UpdateOTPData) (n : Nat) (h : List ScanEntry)
    (f : Option FoundInfo) :
    projectPublic
      { r with owner := o, updateOTP := u, scanCount := n,
               scanHistory := h, foundBy := f } = projectPublic r := rfl

/-- Witness record for C2 (fresh unactivated record, empty history). -/
def wRecC2 : QRRecord := { code := "W2", type := "item" }

/-- C2 witness at a concrete record and scan sequence. -/
theorem scanHistory_bounded_fifo_witness :
    wRecC2.scanHistory.length ≤ 50 ∧
    ((applyScans wRecC2 [(1, {}), (2, {}), (3, {})]).scanHistory.length ≤ 50 ∧
     (incrementScanCount wRecC2 7 {}).scanHistory =
       (if wRecC2.scanHistory.length = 50 then wRecC2.scanHistory.drop 1
        else wRecC2.scanHistory) ++ [newScanEntry 7 {}]) :=
  ⟨by decide, scanHistory_bounded_fifo wRecC2 (by decide) [(1, {}), (2, {}), (3, {})] 7 {}⟩

/-- C4: scanning an unactivated code fails with `NotActivated` on both scan
endpoints and leaves the store and the cache exactly as they were — so no
`scanCount` increment, no `lastScanned` update, and no history entry. -/
theorem scan_unactivated_no_side_effects (db : Store) (cache : Cache)
    (code : String) (m : ScanMeta) (now : Nat) (r : QRRecord)
    (hfind : findOne db code = some r) (hact : r.isActivated = false) :
    handleScan db cache code m now = (Except.error QRError.notActivated, db, cache) ∧
    trackScan db cache code m now = (Except.error QRError.notActivated, db, cache) := by
  constructor
  · simp [handleScan, hfind, hact]
  · simp [trackScan, hfind, hact]

/-- Witness record and store for C4. -/
def wRecC4 : QRRecord := { code := "W4", type := "item", isActivated := false }

def wDbC4 : Store := fun c => if c = "W4" then some wRecC4 else none

/-- C4 witness at a concrete unactivated record. -/
theorem scan_unactivated_no_side_effects_witness :
    findOne wDbC4 "W4" = some wRecC4 ∧ wRecC4.isActivated = false ∧
    (handleScan wDbC4 emptyCache "W4" {} 9 =
       (Except.error QRError.notActivated, wDbC4, emptyCache) ∧
     trackScan wDbC4 emptyCache "W4" {} 9 =
       (Except.error QRError.notActivated, wDbC4, emptyCache)) :=
  ⟨by decide, by decide,
   scan_unactivated_no_side_effects wDbC4 emptyCache "W4" {} 9 wRecC4
     (by decide) (by decide)⟩

/-- C3: on the activate endpoint, an already-activated record is returned
unchanged (store and cache untouched, hence `activationDate` and every
other field keep their values) when the requesting identity equals the
record's owner, and every other requesting identity is rejected with
`AlreadyActivated`. -/
theorem activate_idempotency (db : Store) (cache : Cache) (code : String)
    (a : ActivationData) (now : Nat) (r : QRRecord) (o : String)
    (hfind : findOne db code = some r) (hact : r.isActivated = true)
    (hown : r.owner = some o) :
    activateRoute db cache code a o now = (Except.ok r, db, cache) ∧
    ∀ userId, userId ≠ o →
      activateRoute db cache code a userId now =
        (Except.error QRError.alreadyActivated, db, cache) := by
  constructor
  · simp [activateRoute, hfind, hact, hown]
  · intro uid hne
    simp [activateRoute, hfind, hact, hown, Ne.symm hne]

/-- Witness record and store for C3. -/
def wRecC3 : QRRecord :=
  { code := "W3", type := "pet", owner := some "alice", isActivated := true,
    activationDate := some 42 }

def wDbC3 : Store := fun c => if c = "W3" then some wRecC3 else none

/-- C3 witness: same-owner re-activation is a no-op, a different identity
is rejected. -/
theorem activate_idempotency_witness :
    findOne wDbC3 "W3" = some wRecC3 ∧
    (activateRoute wDbC3 emptyCache "W3" {} "alice" 99 =
       (Except.ok wRecC3, wDbC3, emptyCache) ∧
     activateRoute wDbC3 emptyCache "W3" {} "bob" 99 =
       (Except.error QRError.alreadyActivated, wDbC3, emptyCache)) :=
  ⟨by decide,
   (activate_idempotency wDbC3 emptyCache "W3" {} 99 wRecC3 "alice"
      (by decide) (by decide) (by decide)).1,
   (activate_idempotency wDbC3 emptyCache "W3" {} 99 wRecC3 "alice"
      (by decide) (by decide) (by decide)).2 "bob" (by decide)⟩

/-- A freshly inserted cache entry survives the cleanup sweep run at the
same instant. -/
lemma cacheGet_cleanup_set (c : Cache) (now : Nat) (k : String) (e : CacheEntry)
    (h : ¬ now - e.timestamp > CACHE_TTL) :
    cacheGet (cleanupCache (cacheSet c k e) now) k = some e := by
  simp [cacheGet, cleanupCache, cacheSet, h]

/-- C5: a public lookup never serves a cache entry aged ≥ TTL — any answer
produced without a database query came from an entry strictly younger
than `CACHE_TTL`; and a lookup finding its entry expired queries the
store and, when the record exists, repopulates the cache with a fresh
`now` timestamp. -/
theorem cache_ttl_expiry (db : Store) (cache : Cache) (code : String) (now : Nat) :
    ((getQRCodeByCodePublic db cache code now).2.2 = false →
      ∃ e, cacheGet cache (cacheKey code) = some e ∧
        now - e.timestamp < CACHE_TTL ∧
        (getQRCodeByCodePublic db cache code now).1 = Except.ok e.data) ∧
    (∀ e, cacheGet cache (cacheKey code) = some e →
      CACHE_TTL ≤ now - e.timestamp →
      (getQRCodeByCodePublic db cache code now).2.2 = true ∧
      ∀ r, findOne db code = some r →
        cacheGet (getQRCodeByCodePublic db cache code now).2.1 (cacheKey code) =
          some { data := projectPublic r, timestamp := now }) := by
  rcases hc : cacheGet cache (cacheKey code) with _ | e
  · constructor
    · intro hfalse
      simp [getQRCodeByCodePublic, hc] at hfalse
    · intro e he
      cases he
  · by_cases ht : now - e.timestamp < CACHE_TTL
    · constructor
      · intro _
        exact ⟨e, rfl, ht, by simp [getQRCodeByCodePublic, hc, ht]⟩
      · intro e' he' hge
        cases he'
        omega
    · constructor
      · intro hfalse
        simp [getQRCodeByCodePublic, hc, ht] at hfalse
      · intro e' he' _
        cases he'
        constructor
        · simp [getQRCodeByCodePublic, hc, ht]
        · intro r hr
          simp only [getQRCodeByCodePublic, hc, ht, if_neg,
            fetchQRCodeFromDatabase, hr]
          exact cacheGet_cleanup_set cache now (cacheKey code) _ (by simp)

/-- Witness record, store and cache for C5 (entry inserted at time 0,
looked up at exactly the TTL). -/
def wRecC5 : QRRecord := { code := "W5", type := "item", isActivated := true }

def wDbC5 : Store := fun c => if c = "W5" then some wRecC5 else none

def wEntryC5 : CacheEntry := { data := projectPublic wRecC5, timestamp := 0 }

def wCacheC5 : Cache := fun k => if k = cacheKey "W5" then some wEntryC5 else none

/-- C5 witness: at age exactly TTL the entry is not served; the store is
queried and the cache repopulated with the fresh timestamp. -/
theorem cache_ttl_expiry_witness :
    cacheGet wCacheC5 (cacheKey "W5") = some wEntryC5 ∧
    CACHE_TTL ≤ 600000 - wEntryC5.timestamp ∧
    findOne wDbC5 "W5" = some wRecC5 ∧
    ((getQRCodeByCodePublic wDbC5 wCacheC5 "W5" 600000).2.2 = true ∧
     cacheGet (getQRCodeByCodePublic wDbC5 wCacheC5 "W5" 600000).2.1 (cacheKey "W5") =
       some { data := projectPublic wRecC5, timestamp := 600000 }) :=
  ⟨by decide, by decide, by decide,
   ((cache_ttl_expiry wDbC5 wCacheC5 "W5" 600000).2 wEntryC5 (by decide) (by decide)).1,
   ((cache_ttl_expiry wDbC5 wCacheC5 "W5" 600000).2 wEntryC5 (by decide)
      (by decide)).2 wRecC5 (by decide)⟩

lemma incrementScanCount_code (r : QRRecord) (now : Nat) (m : ScanMeta) :
    (incrementScanCount r now m).code = r.code := rfl

lemma markAsFound_code (r : QRRecord) (f : FinderDetails) (now : Nat) :
    (markAsFound r f now).code = r.code := rfl

/-- C1 (amended): among the mutating operations, activate, both scan
endpoints, and report-found delete the code's cache entry as part of a
successful run; update-details and toggle-status return the cache exactly
as it was, so a stale pre-mutation snapshot stays served until its TTL
expires. -/
theorem cache_eviction_by_operation (db : Store) (cache : Cache) (code : String)
    (a : ActivationData) (uid : String) (m : ScanMeta) (f : FinderDetails)
    (u : UpdatePatch) (st : Status) (now : Nat) (r : QRRecord)
    (hfind : findOne db code = some r) (hcode : r.code = code) :
    (r.isActivated = false →
      cacheGet (activateQRCode db cache code a uid now).2.2 (cacheKey code) = none) ∧
    (r.isActivated = true →
      cacheGet (handleScan db cache code m now).2.2 (cacheKey code) = none ∧
      cacheGet (trackScan db cache code m now).2.2 (cacheKey code) = none) ∧
    (r.status ≠ Status.found →
      cacheGet (reportFound db cache code f now).2.2 (cacheKey code) = none) ∧
    (updateQRCode db cache code u).2.2 = cache ∧
    (toggleQRCodeStatus db cache code st).2.2 = cache := by
  refine ⟨?_, ?_, ?_, ?_, ?_⟩
  · intro hact
    simp [activateQRCode, hfind, hact, cacheGet, cacheDelete]
  · intro hact
    constructor
    · simp [handleScan, hfind, hact, cacheGet, cacheDelete,
        incrementScanCount_code, hcode]
    · simp [trackScan, hfind, hact, cacheGet, cacheDelete,
        incrementScanCount_code, hcode]
  · intro hst
    simp [reportFound, hfind, hst, cacheGet, cacheDelete, markAsFound_code, hcode]
  · simp [updateQRCode, hfind]
  · simp [toggleQRCodeStatus, hfind]

/-- C1 counterexample data: an activated record whose stale projection sits
in the cache with timestamp 0, then updated through `updateQRCode`. -/
def xRecC1 : QRRecord :=
  { code := "X1", type := "item", owner := some "o1", isActivated := true,
    details := { name := some "Old" } }

def xDbC1 : Store := fun c => if c = "X1" then some xRecC1 else none

def xEntryC1 : CacheEntry := { data := projectPublic xRecC1, timestamp := 0 }

def xCacheC1 : Cache := fun k => if k = cacheKey "X1" then some xEntryC1 else none

def xPatchC1 : UpdatePatch := { details := some { name := some "New" } }

/-- C1 counterexample: a successful update-details operation leaves the
pre-mutation cache entry in place — neither absent nor fresher — and the
next public lookup (here at time 5, within the TTL) returns that stale
pre-mutation snapshot. -/
theorem update_cache_not_evicted_counterexample :
    (updateQRCode xDbC1 xCacheC1 "X1" xPatchC1).1.map (fun r => r.details.name) =
      Except.ok (some "New") ∧
    cacheGet (updateQRCode xDbC1 xCacheC1 "X1" xPatchC1).2.2 (cacheKey "X1") =
      some xEntryC1 ∧
    (updateQRCode xDbC1 xCacheC1 "X1" xPatchC1).1.map projectPublic ≠
      Except.ok xEntryC1.data ∧
    (getQRCodeByCodePublic (updateQRCode xDbC1 xCacheC1 "X1" xPatchC1).2.1
        (updateQRCode xDbC1 xCacheC1 "X1" xPatchC1).2.2 "X1" 5).1 =
      Except.ok xEntryC1.data := by decide

/-- Witness data for the amended C1 theorem: one unactivated record, one
activated one, and a cache that answers every key. -/
def wRecC1a : QRRecord := { code := "WA", type := "item", isActivated := false }

def wDbC1a : Store := fun c => if c = "WA" then some wRecC1a else none

def wRecC1b : QRRecord :=
  { code := "WB", type := "pet", owner := some "o", isActivated := true,
    status := Status.active }

def wDbC1b : Store := fun c => if c = "WB" then some wRecC1b else none

def wEntryC1 : CacheEntry := { data := projectPublic wRecC1a, timestamp := 1 }

def wCacheC1 : Cache := fun _ => some wEntryC1

/-- C1 (amended) witness at concrete inputs for all five operations. -/
theorem cache_eviction_by_operation_witness :
    findOne wDbC1a "WA" = some wRecC1a ∧ wRecC1a.code = "WA" ∧
    findOne wDbC1b "WB" = some wRecC1b ∧ wRecC1b.code = "WB" ∧
    cacheGet (activateQRCode wDbC1a wCacheC1 "WA" {} "u" 3).2.2 (cacheKey "WA") = none ∧
    cacheGet (handleScan wDbC1b wCacheC1 "WB" {} 3).2.2 (cacheKey "WB") = none ∧
    cacheGet (trackScan wDbC1b wCacheC1 "WB" {} 3).2.2 (cacheKey "WB") = none ∧
    cacheGet (reportFound wDbC1b wCacheC1 "WB" {} 3).2.2 (cacheKey "WB") = none ∧
    (updateQRCode wDbC1a wCacheC1 "WA" {}).2.2 = wCacheC1 ∧
    (toggleQRCodeStatus wDbC1a wCacheC1 "WA" Status.inactive).2.2 = wCacheC1 :=
  ⟨by decide, by decide, by decide, by decide,
   (cache_eviction_by_operation wDbC1a wCacheC1 "WA" {} "u" {} {} {} Status.inactive 3
      wRecC1a (by decide) (by decide)).1 (by decide),
   ((cache_eviction_by_operation wDbC1b wCacheC1 "WB" {} "u" {} {} {} Status.inactive 3
      wRecC1b (by decide) (by decide)).2.1 (by decide)).1,
   ((cache_eviction_by_operation wDbC1b wCacheC1 "WB" {} "u" {} {} {} Status.inactive 3
      wRecC1b (by decide) (by decide)).2.1 (by decide)).2,
   (cache_eviction_by_operation wDbC1b wCacheC1 "WB" {} "u" {} {} {} Status.inactive 3
      wRecC1b (by decide) (by decide)).2.2.1 (by decide),
   (cache_eviction_by_operation wDbC1a wCacheC1 "WA" {} "u" {} {} {} Status.inactive 3
      wRecC1a (by decide) (by decide)).2.2.2.1,
   (cache_eviction_by_operation wDbC1a wCacheC1 "WA" {} "u" {} {} {} Status.inactive 3
      wRecC1a (by decide) (by decide)).2.2.2.2⟩

/-- C7 (amended): `updateQRCode` works at the subdocument level — each of
`details` / `contact` / `settings` that is present in the patch replaces
the whole corresponding subdocument, each absent one is left untouched,
and every other record field is unchanged. -/
theorem update_subdocument_replacement (db : Store) (cache : Cache)
    (code : String) (u : UpdatePatch) (r : QRRecord)
    (hfind : findOne db code = some r) :
    ∃ r2, updateQRCode db cache code u = (Except.ok r2, saveRecord db r2, cache) ∧
      r2.details = u.details.getD r.details ∧
      r2.contact = u.contact.getD r.contact ∧
      r2.settings = u.settings.getD r.settings ∧
      r2.code = r.code ∧ r2.owner = r.owner ∧ r2.status = r.status ∧
      r2.isActivated = r.isActivated ∧ r2.activationDate = r.activationDate ∧
      r2.scanCount = r.scanCount ∧ r2.scanHistory = r.scanHistory ∧
      r2.updateOTP = r.updateOTP := by
  refine ⟨applyUpdatePatch r u,
          ?_, rfl, rfl, rfl, rfl, rfl, rfl, rfl, rfl, rfl, rfl, rfl⟩
  simp [updateQRCode, hfind]

/-- C7 counterexample data: a record holding `details.color`, patched with
a `details` object that carries only `name`. -/
def xRecC7 : QRRecord :=
  { code := "X7", type := "item",
    details := { name := some "A", color := some "red" } }

def xDbC7 : Store := fun c => if c = "X7" then some xRecC7 else none

def xPatchC7 : UpdatePatch := { details := some { name := some "B" } }

/-- C7 counterexample: the patch's `details` is present but omits `color`;
after the update the stored `color` is gone instead of keeping its prior
value, refuting field-level partial-merge semantics. -/
theorem update_partial_merge_counterexample :
    xRecC7.details.color = some "red" ∧
    xPatchC7.details.map (fun d => d.color) = some none ∧
    (updateQRCode xDbC7 emptyCache "X7" xPatchC7).1.map (fun r => r.details.name) =
      Except.ok (some "B") ∧
    (updateQRCode xDbC7 emptyCache "X7" xPatchC7).1.map (fun r => r.details.color) =
      Except.ok none := by decide

/-- C7 (amended) witness at the same concrete record and patch. -/
theorem update_subdocument_replacement_witness :
    findOne xDbC7 "X7" = some xRecC7 ∧
    ∃ r2, updateQRCode xDbC7 emptyCache "X7" xPatchC7 =
        (Except.ok r2, saveRecord xDbC7 r2, emptyCache) ∧
      r2.details = xPatchC7.details.getD xRecC7.details ∧
      r2.contact = xPatchC7.contact.getD xRecC7.contact ∧
      r2.settings = xPatchC7.settings.getD xRecC7.settings ∧
      r2.code = xRecC7.code ∧ r2.owner = xRecC7.owner ∧
      r2.status = xRecC7.status ∧ r2.isActivated = xRecC7.isActivated ∧
      r2.activationDate = xRecC7.activationDate ∧
      r2.scanCount = xRecC7.scanCount ∧ r2.scanHistory = xRecC7.scanHistory ∧
      r2.updateOTP = xRecC7.updateOTP :=
  ⟨by decide,
   update_subdocument_replacement xDbC7 emptyCache "X7" xPatchC7 xRecC7 (by decide)⟩

/-- C8 (amended): the toggle-status endpoint maps `active` to `inactive`
and every other current status — `inactive`, but also `suspended` and
`found` — to `active`; an absent code fails with `NotFound`. -/
theorem toggle_status_flip (db : Store) (cache : Cache) (code uid : String) :
    (findOne db code = none →
      toggleStatusRoute db cache code uid =
        (Except.error QRError.notFound, db, cache)) ∧
    ∀ r, findOne db code = some r → r.owner = some uid →
      ∃ r2, (toggleStatusRoute db cache code uid).1 = Except.ok r2 ∧
        r2.status =
          (if r.status = Status.active then Status.inactive else Status.active) := by
  constructor
  · intro h
    simp [toggleStatusRoute, h]
  · intro r hfind hown
    exact ⟨{ r with status :=
              if r.status = Status.active then Status.inactive else Status.active },
           by simp [toggleStatusRoute, toggleQRCodeStatus, hfind, hown], rfl⟩

/-- C8 counterexample data: a found record owned by `u1`. -/
def xRecC8 : QRRecord :=
  { code := "X8", type := "pet", owner := some "u1", isActivated := true,
    status := Status.found }

def xDbC8 : Store := fun c => if c = "X8" then some xRecC8 else none

/-- C8 counterexample: toggling a record whose status is `found` succeeds
and moves it to `active`, so toggle does change found records. -/
theorem toggle_found_counterexample :
    xRecC8.status = Status.found ∧
    (toggleStatusRoute xDbC8 emptyCache "X8" "u1").1.map (fun r => r.status) =
      Except.ok Status.active := by decide

/-- An always-empty store for the C8 witness's not-found branch. -/
def wDbC8e : Store := fun _ => none

/-- C8 (amended) witness: not-found on an empty store, and the concrete
found-to-active flip. -/
theorem toggle_status_flip_witness :
    toggleStatusRoute wDbC8e emptyCache "NOPE" "u1" =
      (Except.error QRError.notFound, wDbC8e, emptyCache) ∧
    ∃ r2, (toggleStatusRoute xDbC8 emptyCache "X8" "u1").1 = Except.ok r2 ∧
      r2.status =
        (if xRecC8.status = Status.active then Status.inactive else Status.active) :=
  ⟨(toggle_status_flip wDbC8e emptyCache "NOPE" "u1").1 rfl,
   (toggle_status_flip xDbC8 emptyCache "X8" "u1").2 xRecC8 (by decide) (by decide)⟩

lemma applyUpdatePatch_code (r : QRRecord) (u : UpdatePatch) :
    (applyUpdatePatch r u).code = r.code := rfl

lemma applyUpdatePatch_owner (r : QRRecord) (u : UpdatePatch) :
    (applyUpdatePatch r u).owner = r.owner := rfl

lemma applyUpdatePatch_updateOTP (r : QRRecord) (u : UpdatePatch) :
    (applyUpdatePatch r u).updateOTP = r.updateOTP := rfl

/-- Reduction of `verifyUpdateOTP` once the document lookup is known. -/
lemma verifyUpdateOTP_found (db : Store) (code otp : String) (now : Nat)
    (r : QRRecord) (hfind : findOne db code = some r) :
    verifyUpdateOTP db code otp now =
      (match r.updateOTP with
       | none => false
       | some u =>
         match u.code, u.expires with
         | some c, some e => c == otp && decide (now < e)
         | _, _ => false) := by
  unfold verifyUpdateOTP
  rw [hfind]

/-- C6: the contact-update OTP is single-use.  When a verify-and-apply call
succeeds — record present and owned by the caller, submitted OTP equal to
the stored one, `now` strictly before expiry — the stored record's
`updateOTP` subfields are cleared, and a repeat call with the same OTP,
at any later time and with any patch, fails with `InvalidOrExpiredOTP`. -/
theorem otp_single_use (db : Store) (cache : Cache) (code otp : String)
    (u : UpdatePatch) (uid : String) (now : Nat) (r : QRRecord)
    (hfind : findOne db code = some r) (hcode : r.code = code)
    (hown : r.owner = some uid)
    (hotp : verifyUpdateOTP db code otp now = true) :
    (∃ r2, (verifyUpdateRoute db cache code otp u uid now).1 = Except.ok r2) ∧
    (∀ x, findOne (verifyUpdateRoute db cache code otp u uid now).2.1 code = some x →
      x.updateOTP = some ({} : UpdateOTPData)) ∧
    ∀ u2 now2,
      (verifyUpdateRoute (verifyUpdateRoute db cache code otp u uid now).2.1
         (verifyUpdateRoute db cache code otp u uid now).2.2 code otp u2 uid now2).1 =
        Except.error QRError.invalidOrExpiredOTP := by
  have h1 := hotp
  rw [verifyUpdateOTP_found db code otp now r hfind] at h1
  rcases hu : r.updateOTP with _ | u0
  · rw [hu] at h1
    simp at h1
  · have hupd : updateQRCode db cache code u =
        (Except.ok (applyUpdatePatch r u), saveRecord db (applyUpdatePatch r u), cache) := by
      simp [updateQRCode, hfind]
    have hroute : verifyUpdateRoute db cache code otp u uid now =
        (Except.ok (applyUpdatePatch r u),
         clearUpdateOTP (saveRecord db (applyUpdatePatch r u)) code, cache) := by
      simp [verifyUpdateRoute, hfind, hown, hotp, hupd]
    have hr2code : (applyUpdatePatch r u).code = code := by
      rw [applyUpdatePatch_code, hcode]
    have hfind2 : findOne (saveRecord db (applyUpdatePatch r u)) code =
        some (applyUpdatePatch r u) := by
      simp [findOne, saveRecord, hr2code]
    obtain ⟨r3, hr3⟩ : ∃ r3 : QRRecord,
        r3 = { applyUpdatePatch r u with updateOTP := some ({} : UpdateOTPData) } :=
      ⟨_, rfl⟩
    have hr3owner : r3.owner = some uid := by
      rw [hr3]
      exact hown
    have hr3otp : r3.updateOTP = some ({} : UpdateOTPData) := by
      rw [hr3]
    have hr3code : r3.code = code := by
      rw [hr3]
      exact hcode
    have hclear : clearUpdateOTP (saveRecord db (applyUpdatePatch r u)) code =
        saveRecord (saveRecord db (applyUpdatePatch r u)) r3 := by
      rw [hr3]
      simp [clearUpdateOTP, hfind2, applyUpdatePatch_updateOTP, hu]
    have hT : verifyUpdateRoute db cache code otp u uid now =
        (Except.ok (applyUpdatePatch r u),
         saveRecord (saveRecord db (applyUpdatePatch r u)) r3, cache) := by
      rw [hroute, hclear]
    have hfind3 : findOne (saveRecord (saveRecord db (applyUpdatePatch r u)) r3)
        code = some r3 := by
      simp [findOne, saveRecord, hr3code]
    have hT1 : (verifyUpdateRoute db cache code otp u uid now).2.1 =
        saveRecord (saveRecord db (applyUpdatePatch r u)) r3 := by
      rw [hT]
    have hT2 : (verifyUpdateRoute db cache code otp u uid now).2.2 = cache := by
      rw [hT]
    refine ⟨⟨applyUpdatePatch r u, by rw [hT]⟩, ?_, ?_⟩
    · intro x hx
      rw [hT1, hfind3] at hx
      cases hx
      exact hr3otp
    · intro u2 now2
      rw [hT1, hT2]
      have hver2 : verifyUpdateOTP (saveRecord (saveRecord db (applyUpdatePatch r u)) r3)
          code otp now2 = false := by
        rw [verifyUpdateOTP_found _ code otp now2 _ hfind3, hr3otp]
      simp [verifyUpdateRoute, hfind3, hver2, hr3owner]

/-- Witness record and store for C6 (a pending OTP `123456` expiring at
time 1000, verified at time 500). -/
def wRecC6 : QRRecord :=
  { code := "W6", type := "item", owner := some "alice", isActivated := true,
    updateOTP := some { code := some "123456", expires := some 1000 } }

def wDbC6 : Store := fun c => if c = "W6" then some wRecC6 else none

/-- C6 witness at the concrete record, OTP and times. -/
theorem otp_single_use_witness :
    findOne wDbC6 "W6" = some wRecC6 ∧ wRecC6.code = "W6" ∧
    wRecC6.owner = some "alice" ∧
    verifyUpdateOTP wDbC6 "W6" "123456" 500 = true ∧
    ((∃ r2, (verifyUpdateRoute wDbC6 emptyCache "W6" "123456" {} "alice" 500).1 =
        Except.ok r2) ∧
     (∀ x, findOne (verifyUpdateRoute wDbC6 emptyCache "W6" "123456" {} "alice" 500).2.1
         "W6" = some x → x.updateOTP = some ({} : UpdateOTPData)) ∧
     ∀ u2 now2,
       (verifyUpdateRoute
          (verifyUpdateRoute wDbC6 emptyCache "W6" "123456" {} "alice" 500).2.1
          (verifyUpdateRoute wDbC6 emptyCache "W6" "123456" {} "alice" 500).2.2
          "W6" "123456" u2 "alice" now2).1 =
         Except.error QRError.invalidOrExpiredOTP) :=
  ⟨by decide, by decide, by decide, by decide,
   otp_single_use wDbC6 emptyCache "W6" "123456" {} "alice" 500 wRecC6
     (by decide) (by decide) (by decide) (by decide)⟩

/-- Arrivals that all miss the cache while a fetch is in flight only pile
up as waiters: the cache, query count and delivered results are
untouched. -/
lemma arrivals_accumulate (db : Store) (code : String) (cs : List (Nat × Nat))
    (c : Cache) (hcache : cacheGet c (cacheKey code) = none)
    (ws : List Nat) (d : Nat) (rs : List (Nat × Except QRError PublicView)) :
    runEvents db code ⟨c, some ws, d, rs⟩ (cs.map (fun ct => Ev.arrive ct.1 ct.2)) =
      ⟨c, some ((cs.map Prod.fst).reverse ++ ws), d, rs⟩ := by
  induction cs generalizing ws with
  | nil => simp [runEvents]
  | cons a tl ih =>
      have hstep : step db code ⟨c, some ws, d, rs⟩ (Ev.arrive a.1 a.2) =
          ⟨c, some (a.1 :: ws), d, rs⟩ := by
        simp [step, hcache, arriveMiss]
      simp only [List.map_cons, runEvents, List.foldl_cons]
      rw [hstep]
      have htl := ih (a.1 :: ws)
      simp only [runEvents] at htl
      rw [htl]
      simp [List.append_assoc]

/-- C9: for any nonempty batch of concurrent public lookups of the same
uncached code (all arriving before the shared fetch completes), exactly
one database query is issued, every caller is delivered the same result,
and the registry entry is removed on completion whether the fetch
succeeded or failed. -/
theorem lookup_coalescing (db : Store) (code : String)
    (callers : List (Nat × Nat)) (hne : callers ≠ []) (tN : Nat) :
    (step db code
        (runEvents db code initialState (callers.map (fun ct => Ev.arrive ct.1 ct.2)))
        (Ev.complete tN)).dbQueries = 1 ∧
    (step db code
        (runEvents db code initialState (callers.map (fun ct => Ev.arrive ct.1 ct.2)))
        (Ev.complete tN)).inFlight = none ∧
    ∃ res, (step db code
        (runEvents db code initialState (callers.map (fun ct => Ev.arrive ct.1 ct.2)))
        (Ev.complete tN)).results =
      (callers.map Prod.fst).reverse.map (fun caller => (caller, res)) := by
  rcases callers with _ | ⟨a, tl⟩
  · exact absurd rfl hne
  · have hfirst : step db code initialState (Ev.arrive a.1 a.2) =
        ⟨emptyCache, some [a.1], 1, []⟩ := by
      simp [step, initialState, emptyCache, cacheGet, arriveMiss]
    have hrun : runEvents db code initialState
        ((a :: tl).map (fun ct => Ev.arrive ct.1 ct.2)) =
        ⟨emptyCache, some (((a :: tl).map Prod.fst).reverse), 1, []⟩ := by
      simp only [List.map_cons, runEvents, List.foldl_cons]
      rw [hfirst]
      have htl := arrivals_accumulate db code tl emptyCache rfl [a.1] 1 []
      simp only [runEvents] at htl
      rw [htl]
      simp
    rw [hrun]
    rcases hdb : findOne db code with _ | r
    · exact ⟨by simp [step, hdb], by simp [step, hdb],
        Except.error QRError.notFound, by simp [step, hdb]⟩
    · exact ⟨by simp [step, hdb], by simp [step, hdb],
        Except.ok (projectPublic r), by simp [step, hdb]⟩

/-- Witness record and store for C9. -/
def wRecC9 : QRRecord := { code := "W9", type := "item", isActivated := true }

def wDbC9 : Store := fun c => if c = "W9" then some wRecC9 else none

/-- C9 witness: three concurrent callers for one uncached code. -/
theorem lookup_coalescing_witness :
    ([(1, 0), (2, 3), (3, 5)] : List (Nat × Nat)) ≠ [] ∧
    ((step wDbC9 "W9"
        (runEvents wDbC9 "W9" initialState
          (([(1, 0), (2, 3), (3, 5)] : List (Nat × Nat)).map
            (fun ct => Ev.arrive ct.1 ct.2)))
        (Ev.complete 7)).dbQueries = 1 ∧
     (step wDbC9 "W9"
        (runEvents wDbC9 "W9" initialState
          (([(1, 0), (2, 3), (3, 5)] : List (Nat × Nat)).map
            (fun ct => Ev.arrive ct.1 ct.2)))
        (Ev.complete 7)).inFlight = none ∧
     ∃ res, (step wDbC9 "W9"
        (runEvents wDbC9 "W9" initialState
          (([(1, 0), (2, 3), (3, 5)] : List (Nat × Nat)).map
            (fun ct => Ev.arrive ct.1 ct.2)))
        (Ev.complete 7)).results =
      (([(1, 0), (2, 3), (3, 5)] : List (Nat × Nat)).map Prod.fst).reverse.map
        (fun caller => (caller, res))) :=
  ⟨by decide, lookup_coalescing wDbC9 "W9" [(1, 0), (2, 3), (3, 5)] (by decide) 7⟩

end ScanBack
